import Mathlib

/-!
# A shallow embedding of `patch_catss.py`

This file embeds the repair pipeline of `patch_catss.py` (the CATSS
database patcher) in Lean 4 and proves properties of the embedding.

Modelling conventions:
* a Python line list is a `List String`;
* the corpus `file2lines` dict is an association list
  `List (String × List String)` (insertion order preserved, as in Python);
* fallible Python operations (list indexing, dict lookup, attribute access
  on `None`) are modelled with `Except PyErr`, one constructor per Python
  exception class that can be raised;
* Python list indexing `l[i]` is `pyGet l i` with `i : Int`, which mirrors
  negative-index semantics;
* regular-expression machinery is modelled at the character-list level for
  the two concrete Bulk Normalizer patterns, and the Manual Edit Applier is
  parametrised over an abstract confirmation predicate standing for
  `re.findall(pattern, line)` truthiness.
-/

namespace PatchCatss

/-- Python exceptions that the pipeline can raise. -/
inductive PyErr
  | indexError
  | attributeError
  | keyError
  deriving DecidableEq, Repr

/-- The tab character, Python `'\t'` (the column delimiter of the corpus). -/
def tabChar : Char := Char.ofNat 9

/-- The ASCII apostrophe character used by the second normalization
pattern of `patch_catss.py`. -/
def quoteChar : Char := Char.ofNat 39

/-- Python list indexing `l[i]`: negative indices count from the end,
out-of-range access is an `IndexError` (here: `none`). -/
def pyGet (l : List String) (i : Int) : Option String :=
  if i < 0 then
    if i + l.length < 0 then none
    else l[(i + l.length).toNat]?
  else l[i.toNat]?

/-- Matcher for the space-chapter-colon-verse tail of a reference line:
a space, one or more digits, a colon, one or more digits. -/
def chapVerse (cs : List Char) : Bool :=
  match cs with
  | c :: rest =>
    if c = ' ' then
      let ch := rest.takeWhile Char.isDigit
      let r2 := rest.dropWhile Char.isDigit
      if ch.isEmpty then false
      else
        match r2 with
        | d :: r3 => d = ':' && !(r3.takeWhile Char.isDigit).isEmpty
        | [] => false
    else false
  | [] => false

/-- Modelled from the spec: the source imports `ref_string` from a
`regex_patterns` module that is not among the provided sources.  Per the
spec it is "a fixed line-start pattern recognizing book/chapter/verse
citations (e.g. `Ps 18:40`, `Exod 1:10`)": an alphanumeric book token,
then a space, digits, a colon, and digits, anchored at the start of the
line only (Python `re.match` allows arbitrary trailing text). -/
def refMatch (line : String) : Bool :=
  let cs := line.toList
  let book := cs.takeWhile Char.isAlphanum
  let rest := cs.dropWhile Char.isAlphanum
  !book.isEmpty && chapVerse rest

/-- Python `'\t' not in line` test, negated: does the line contain the
column delimiter? -/
def lineHasTab (line : String) : Bool :=
  line.toList.contains tabChar

/-- Python `current_verse.startswith('Ps')`. -/
def psPrefix (cv : String) : Bool :=
  cv.toList.take 2 == ('P' :: 's' :: [])

/-! ## Manual Edit Applier (source lines 35-72)

The applier walks the edit list in declaration order.  `edit[0] or file`
falls back to the previously named file when the file field is empty.
`re.findall(re_confirm, old_line)` truthiness is abstracted into the
`confirm` predicate.  Log text follows the `report` strings of the source
(the Python `repr` of the edit tuple is rendered without quoting). -/

/-- Python `file2lines[file]`: first binding wins (dict keys are unique in
the source, so association-list lookup is equivalent). -/
def lookupFile (fls : List (String × List String)) (f : String) :
    Option (List String) :=
  match fls with
  | [] => none
  | (g, ls) :: rest => if g = f then some ls else lookupFile rest f

/-- Python `file2lines[file] = ls` for an existing key. -/
def setFile (fls : List (String × List String)) (f : String)
    (ls : List String) : List (String × List String) :=
  fls.map (fun p => if p.1 = f then (f, ls) else p)

/-- Rendering of the edit tuple in the warning log line
`f'\tEDIT: {(file, ln, re_confirm, redaction)}'`. -/
def editRepr (f : String) (ln : Nat) (pat red : String) : String :=
  "(" ++ f ++ ", " ++ toString ln ++ ", " ++ pat ++ ", " ++ red ++ ")"

/-- The Manual Edit Applier (source lines 55-72).  `confirm pat line`
stands for the truthiness of `re.findall(pat, line)`.  A missing file key
is a `KeyError`, an out-of-range line number an `IndexError`. -/
def applyEdits (confirm : String → String → Bool) (curFile : String)
    (edits : List (String × Nat × String × String))
    (fls : List (String × List String)) (log : List String) :
    Except PyErr (List (String × List String) × List String) :=
  match edits with
  | [] => .ok (fls, log)
  | (f0, ln, pat, red) :: rest =>
    let f := if f0 = "" then curFile else f0
    match lookupFile fls f with
    | none => .error .keyError
    | some ls =>
      match ls[ln]? with
      | none => .error .indexError
      | some old =>
        if confirm pat old then
          applyEdits confirm f rest (setFile fls f (ls.set ln red))
            (log ++ ["correction for " ++ f ++ " line " ++ toString ln ++ ":",
                     "\tOLD: " ++ old,
                     "\tNEW: " ++ red])
        else
          applyEdits confirm f rest fls
            (log ++ ["**WARNING: THE FOLLOWING EDIT WAS NOT CONFIRMED**:",
                     "\tOLD: " ++ old,
                     "\tEDIT: " ++ editRepr f ln pat red])

/-! ## Block Excision Repairs (source lines 93-125)

Three guarded repairs.  Note the data flow of the source: `pss` is bound
once at line 108 to the Psalms line list; the Ps 68:31 merge (lines
109-115) builds a *new* list and stores it in `file2lines`, while the
name `pss` keeps referring to the original list; the Ps 18:40 excision
(lines 119-125) then reads and splices that original `pss`.  The
embedding reproduces this by passing both the stale list and the current
list to the excision. -/

/-- The guarded Exodus 35:19 block excision (source lines 93-100).
Returns the new line list together with the log lines it reports. -/
def exodusRepair (exod : List String) :
    Except PyErr (List String × List String) :=
  match pyGet exod 16284 with
  | none => .error .indexError
  | some a =>
    if a = "Exod 1:10" then
      match pyGet exod 16285 with
      | none => .error .indexError
      | some b =>
        .ok (exod.take 16283 ++ [b] ++ exod.drop 16288,
             ["patching corrupt lines 16283-16289 in 02.Exodus.par...",
              "\tdone"])
    else
      .ok (exod,
           ["**WARNING: SKIPPING EXODUS CORRUPTION REPAIR DUE TO CHANGED LINE NUMBERS; see code"])

/-- The guarded Ps 68:31 double-orphan merge (source lines 108-115). -/
def ps68merge (pss : List String) :
    Except PyErr (List String × List String) :=
  match pyGet pss 10848 with
  | none => .error .indexError
  | some a =>
    if a = "MTR" then
      match pyGet pss 10849, pyGet pss 10850 with
      | some b, some c =>
        .ok (pss.take 10848 ++ [a ++ b ++ c] ++ pss.drop 10851,
             ["patching double-orphaned lines in lines 10849-10851 of 20.Psalms.par (Ps 68:31)",
              "\tdone"])
      | _, _ => .error .indexError
    else
      .ok (pss,
           ["**WARNING: SKIPPING PSALMS ORPHAN REPAIR DUE TO CHANGED LINE NUMBERS; see code"])

/-- The guarded Ps 18:40 block excision (source lines 119-125).  `pss` is
the stale binding from source line 108 (both the anchor check and the
splice read it); `cur` is the current Psalms line list in `file2lines`,
which is only kept when the anchor check fails. -/
def ps18excision (pss cur : List String) :
    Except PyErr (List String × List String) :=
  match pyGet pss 2459 with
  | none => .error .indexError
  | some d =>
    if d = "Ps 18:40" then
      match pyGet pss 2457 with
      | none => .error .indexError
      | some e =>
        .ok (pss.take 2456 ++ [e] ++ pss.drop 2460,
             ["patching corrupt lines 2457-2461 in 20.Psalms.par...",
              "\tdone"])
    else
      .ok (cur,
           ["**WARNING: SKIPPING PSALMS ORPHAN REPAIR #2 DUE TO CHANGED LINE NUMBERS; see code"])

/-- The two Psalms repairs in source order (lines 108-125): the merge
updates `file2lines`, the excision then reads the stale `pss` binding. -/
def psalmsRepairs (pss : List String) :
    Except PyErr (List String × List String) :=
  match ps68merge pss with
  | .error e => .error e
  | .ok (m, log1) =>
    match ps18excision pss m with
    | .error e => .error e
    | .ok (r, log2) => .ok (r, log1 ++ log2)

/-! ## Orphan-Line Reattacher (source lines 153-196)

A `while i < len(lines)` loop over each file, with `current_verse`
initialised to `None` once, *before* the file loop (source line 155), so
the verse context carries over from one file to the next.  The embedding
uses a fuel parameter for structural recursion; each iteration consumes
one unit, and the loop runs at most `lines.length` iterations when
started at `i = 0`, so `orphanFile` passes `lines.length` as fuel and the
fuel-exhaustion branch is never reached from it. -/

/-- The log line built at source lines 174-175:
`f'\tpatching {file} at line {i}, {current_verse}:{show}'` with
`show = f'\n\t\t{lines[i-1]}\n\t--> {line}\n\t\t{lines[i+1]}'`. -/
def showMsg (f : String) (i : Nat) (cv prev line nxt : String) : String :=
  "\tpatching " ++ f ++ " at line " ++ toString i ++ ", " ++ cv ++
    ":\n\t\t" ++ prev ++ "\n\t--> " ++ line ++ "\n\t\t" ++ nxt

/-- One file's scan loop (source lines 160-191).  Returns the filtered
lines, the final verse context and the log entries; Python exceptions
become `Except.error`.  The `f`-string at source line 174 evaluates
`lines[i-1]` and then `lines[i+1]` before the direction test at line 178
touches `current_verse`, so a missing following line raises `IndexError`
before a `None` context can raise `AttributeError`; a non-Psalms merge
into an empty output list (`filtered_lines[-1]`) is an `IndexError`. -/
def orphanLoop (f : String) (lines : List String) :
    Option String → List String → List String → Nat → Nat →
    Except PyErr (List String × Option String × List String)
  | ctx, acc, log, _i, 0 => .ok (acc, ctx, log)
  | ctx, acc, log, i, fuel + 1 =>
    match lines[i]? with
    | none => .ok (acc, ctx, log)
    | some line =>
      if refMatch line then
        orphanLoop f lines (some line) (acc ++ [line]) log (i + 1) fuel
      else if !line.isEmpty && !lineHasTab line then
        match pyGet lines ((i : Int) - 1) with
        | none => .error .indexError
        | some prev =>
          match pyGet lines ((i : Int) + 1) with
          | none => .error .indexError
          | some nxt =>
            match ctx with
            | none => .error .attributeError
            | some cv =>
              let log2 := log ++ [showMsg f i cv prev line nxt]
              if psPrefix cv then
                orphanLoop f lines ctx (acc ++ [line ++ nxt]) log2 (i + 2) fuel
              else
                match acc.getLast? with
                | none => .error .indexError
                | some lastLine =>
                  orphanLoop f lines ctx (acc.dropLast ++ [lastLine ++ line])
                    log2 (i + 1) fuel
      else
        orphanLoop f lines ctx (acc ++ [line]) log (i + 1) fuel

/-- Scan of a single file, starting at `i = 0` with empty
`filtered_lines` (source lines 158-161). -/
def orphanFile (f : String) (lines : List String) (ctx : Option String) :
    Except PyErr (List String × Option String × List String) :=
  orphanLoop f lines ctx [] [] 0 lines.length

/-- The per-file loop of the stage (source lines 156-194), threading the
verse context from each file into the next. -/
def orphanStageGo (ctx : Option String) :
    List (String × List String) →
    Except PyErr (List (String × List String) × Option String × List String)
  | [] => .ok ([], ctx, [])
  | (f, lines) :: rest =>
    match orphanFile f lines ctx with
    | .error e => .error e
    | .ok (filtered, ctx2, log1) =>
      match orphanStageGo ctx2 rest with
      | .error e => .error e
      | .ok (files2, ctx3, log2) => .ok ((f, filtered) :: files2, ctx3, log1 ++ log2)

/-- The whole Orphan-Line Reattacher: `current_verse = None` once for the
whole corpus (source line 155). -/
def orphanStage (files : List (String × List String)) :
    Except PyErr (List (String × List String) × Option String × List String) :=
  orphanStageGo none files

/-! ## Bulk Normalizer (source lines 207-242)

Two concrete substitutions, pattern-major: `'~' -> '^'` first, then
`(['^])= -> \g<1> =` (insert a space between an apostrophe or caret and a
following equals sign).  Both are modelled at the character-list level
with Python `re.sub` leftmost non-overlapping semantics.  Within a pass,
a line matching `ref_string` is appended once by the verse-tracking
branch (source line 228) and then appended *again* by the unconditional
substitute-or-keep branch (source lines 231-240), since the two `if`
statements are independent.  Log output of this stage is not modelled
(it does not affect the resulting lines). -/

/-- Substitution `'~' -> '^'` applied to every occurrence. -/
def sub1 (s : String) : String :=
  (s.toList.map fun c => if c = '~' then '^' else c).asString

/-- Truthiness of `re.findall('~', line)`. -/
def hasM1 (s : String) : Bool :=
  s.toList.contains '~'

/-- Worker for the leftmost non-overlapping substitution
`(['^])= -> \g<1> =`: `p` is the previous character, not yet emitted (and
`none` right after a replaced occurrence, since a match consumes both of
its characters). -/
def sub2Go : Option Char → List Char → List Char
  | none, [] => []
  | some p, [] => [p]
  | none, c :: rest => sub2Go (some c) rest
  | some p, c :: rest =>
    if (p == quoteChar || p == '^') && c == '=' then
      p :: ' ' :: '=' :: sub2Go none rest
    else
      p :: sub2Go (some c) rest

/-- Leftmost non-overlapping substitution
`(['^])= -> \g<1> =` on a character list. -/
def sub2Chars (l : List Char) : List Char :=
  sub2Go none l

/-- Worker for `re.findall("(['^])=", line)` truthiness: `p` is the
previous character. -/
def hasM2Go : Char → List Char → Bool
  | _, [] => false
  | p, c :: rest =>
    ((p == quoteChar || p == '^') && c == '=') || hasM2Go c rest

/-- Truthiness of `re.findall("(['^])=", line)`: some character of the
line is an apostrophe or caret immediately followed by an equals sign. -/
def hasM2Chars : List Char → Bool
  | [] => false
  | c :: rest => hasM2Go c rest

/-- `sub2Chars` on strings. -/
def sub2 (s : String) : String :=
  (sub2Chars s.toList).asString

/-- `hasM2Chars` on strings. -/
def hasM2 (s : String) : Bool :=
  hasM2Chars s.toList

/-- One line of a normalization pass (source lines 223-240): the
verse-tracking branch appends reference lines, then the substitution
branch appends either the rewritten or the unchanged line. -/
def normPassLine (hasM : String → Bool) (sub : String → String)
    (acc : List String) (line : String) : List String :=
  let acc1 := if refMatch line then acc ++ [line] else acc
  if hasM line then acc1 ++ [sub line] else acc1 ++ [line]

/-- One normalization pass over one file. -/
def normPassFile (hasM : String → Bool) (sub : String → String)
    (lines : List String) : List String :=
  lines.foldl (normPassLine hasM sub) []

/-- The Bulk Normalizer stage: pattern-major order, the `'~'` pass over
every file, then the `(['^])=` pass over every file. -/
def normStage (files : List (String × List String)) :
    List (String × List String) :=
  let files1 := files.map (fun p => (p.1, normPassFile hasM1 sub1 p.2))
  files1.map (fun p => (p.1, normPassFile hasM2 sub2 p.2))

/-- The two substitutions applied once, in list order. -/
def subsOnce (s : String) : String :=
  sub2 (sub1 s)

/-- A synthetic Psalms file for exercising the two Psalms repairs: both
anchor lines are in place, with distinct markers at the indices the
repairs read. -/
def mkPssLine (i : Nat) : String :=
  if i = 10848 then "MTR"
  else if i = 10849 then "O1"
  else if i = 10850 then "O2"
  else if i = 2459 then "Ps 18:40"
  else if i = 2457 then "K"
  else "x"

/-- A 10852-line Psalms test corpus built from `mkPssLine`. -/
def testPss : List String := (List.range 10852).map mkPssLine

deriving instance DecidableEq for Except

/-! ## Helper lemmas -/

theorem pyGet_nonneg (l : List String) (i : Int) (h : 0 ≤ i) :
    pyGet l i = l[i.toNat]? := by
  simp [pyGet, Int.not_lt.mpr h]

theorem pyGet_pred_isSome (lines : List String) (i : Nat) (l : String)
    (h : lines[i]? = some l) :
    ∃ prev, pyGet lines ((i : Int) - 1) = some prev := by
  have hi : i < lines.length := by
    by_contra hc
    rw [List.getElem?_eq_none (Nat.le_of_not_lt hc)] at h
    exact Option.noConfusion h
  cases i with
  | zero =>
    have h0 : ((0 : Nat) : Int) - 1 = (0 : Int) - 1 := by norm_num
    rw [h0]
    have hstep : pyGet lines ((0 : Int) - 1) =
        lines[((0 : Int) - 1 + lines.length).toNat]? := by
      simp only [pyGet]
      rw [if_pos (by omega : (0 : Int) - 1 < 0),
        if_neg (by omega : ¬ ((0 : Int) - 1 + (lines.length : Int) < 0))]
    rw [hstep]
    have hlt : ((0 : Int) - 1 + lines.length).toNat < lines.length := by omega
    rw [List.getElem?_eq_getElem hlt]
    exact ⟨_, rfl⟩
  | succ k =>
    have hk : ((k + 1 : Nat) : Int) - 1 = (k : Int) := by push_cast; omega
    rw [hk, pyGet_nonneg _ _ (by omega), Int.toNat_natCast]
    have hlt : k < lines.length := by omega
    rw [List.getElem?_eq_getElem hlt]
    exact ⟨_, rfl⟩

theorem testPss_get (n : Nat) (hn : n < 10852) :
    pyGet testPss n = some (mkPssLine n) := by
  have h0 : (0 : Int) ≤ (n : Int) := by omega
  rw [pyGet_nonneg _ _ h0, Int.toNat_natCast, testPss, List.getElem?_map,
    List.getElem?_range hn]
  rfl

theorem sub2Go_some_shape (c : Char) (rest : List Char) :
    ∃ t, sub2Go (some c) rest = c :: t := by
  cases rest with
  | nil => exact ⟨[], rfl⟩
  | cons d rest2 =>
    rw [sub2Go]
    by_cases hc : ((c == quoteChar || c == '^') && d == '=') = true
    · rw [if_pos hc]; exact ⟨_, rfl⟩
    · rw [if_neg hc]; exact ⟨_, rfl⟩

theorem hasM2Go_of_plain (p : Char) (hp : (p == quoteChar || p == '^') = false)
    (l : List Char) : hasM2Go p l = hasM2Chars l := by
  cases l with
  | nil => rfl
  | cons c rest => rw [hasM2Go, hasM2Chars, hp, Bool.false_and, Bool.false_or]

theorem hasM2Chars_sub2Go (l : List Char) :
    (∀ p, hasM2Chars (sub2Go (some p) l) = false) ∧
      hasM2Chars (sub2Go none l) = false := by
  induction l with
  | nil => exact ⟨fun p => rfl, rfl⟩
  | cons c rest ih =>
    have hsome : ∀ p, hasM2Chars (sub2Go (some p) (c :: rest)) = false := by
      intro p
      rw [sub2Go]
      by_cases hc : ((p == quoteChar || p == '^') && c == '=') = true
      · rw [if_pos hc]
        show hasM2Go p (' ' :: '=' :: sub2Go none rest) = false
        rw [hasM2Go, hasM2Go]
        have h1 : ((p == quoteChar || p == '^') && ' ' == '=') = false := by
          simp
        have h2 : ((' ' == quoteChar || ' ' == '^') && '=' == '=') = false := by
          decide
        rw [h1, h2, Bool.false_or, Bool.false_or]
        rw [hasM2Go_of_plain '=' (by decide), ih.2]
      · rw [if_neg hc]
        show hasM2Go p (sub2Go (some c) rest) = false
        obtain ⟨t, ht⟩ := sub2Go_some_shape c rest
        rw [ht, hasM2Go]
        have hpc : ((p == quoteChar || p == '^') && c == '=') = false :=
          Bool.not_eq_true _ ▸ (by simpa using hc)
        rw [hpc, Bool.false_or]
        have hcv : hasM2Go c t = hasM2Chars (c :: t) := rfl
        rw [hcv, ← ht, ih.1 c]
    refine ⟨hsome, ?_⟩
    show hasM2Chars (sub2Go (some c) rest) = false
    exact ih.1 c

theorem hasM2Chars_sub2Chars (l : List Char) :
    hasM2Chars (sub2Chars l) = false :=
  (hasM2Chars_sub2Go l).2

theorem sub2Go_of_no_match (l : List Char) :
    ∀ p, hasM2Go p l = false → sub2Go (some p) l = p :: l := by
  induction l with
  | nil => intro p _; rfl
  | cons c rest ih =>
    intro p hp
    rw [hasM2Go, Bool.or_eq_false_iff] at hp
    rw [sub2Go, if_neg (by simp [hp.1]), ih c hp.2]

theorem sub2Chars_of_no_match (l : List Char) (h : hasM2Chars l = false) :
    sub2Chars l = l := by
  cases l with
  | nil => rfl
  | cons c rest =>
    show sub2Go (some c) rest = c :: rest
    exact sub2Go_of_no_match rest c h

theorem mem_sub2Go (l : List Char) :
    ∀ po x, x ∈ sub2Go po l → x ∈ l ∨ x = ' ' ∨ x = '=' ∨ po = some x := by
  induction l with
  | nil =>
    intro po x hx
    cases po with
    | none => simp [sub2Go] at hx
    | some p => simp [sub2Go] at hx; simp [hx]
  | cons c rest ih =>
    intro po x hx
    cases po with
    | none =>
      rw [sub2Go] at hx
      rcases ih (some c) x hx with h | h | h | h
      · exact Or.inl (List.mem_cons_of_mem _ h)
      · exact Or.inr (Or.inl h)
      · exact Or.inr (Or.inr (Or.inl h))
      · exact Or.inl (by simp at h; simp [h])
    | some p =>
      rw [sub2Go] at hx
      by_cases hc : ((p == quoteChar || p == '^') && c == '=') = true
      · rw [if_pos hc] at hx
        simp only [List.mem_cons] at hx
        rcases hx with h | h | h | h
        · exact Or.inr (Or.inr (Or.inr (by rw [h])))
        · exact Or.inr (Or.inl h)
        · exact Or.inr (Or.inr (Or.inl h))
        · rcases ih none x h with h2 | h2 | h2 | h2
          · exact Or.inl (List.mem_cons_of_mem _ h2)
          · exact Or.inr (Or.inl h2)
          · exact Or.inr (Or.inr (Or.inl h2))
          · exact Option.noConfusion h2
      · rw [if_neg hc] at hx
        simp only [List.mem_cons] at hx
        rcases hx with h | h
        · exact Or.inr (Or.inr (Or.inr (by rw [h])))
        · rcases ih (some c) x h with h2 | h2 | h2 | h2
          · exact Or.inl (List.mem_cons_of_mem _ h2)
          · exact Or.inr (Or.inl h2)
          · exact Or.inr (Or.inr (Or.inl h2))
          · exact Or.inl (by simp at h2; simp [h2])

theorem toList_asString (l : List Char) : (List.asString l).toList = l := rfl

theorem asString_toList (s : String) : s.toList.asString = s := rfl

theorem map_tilde_id (l : List Char) (h : '~' ∉ l) :
    l.map (fun c => if c = '~' then '^' else c) = l := by
  induction l with
  | nil => rfl
  | cons c rest ih =>
    simp only [List.mem_cons, not_or] at h
    rw [List.map_cons, if_neg (fun hc => h.1 hc.symm), ih h.2]

theorem sub1_no_tilde (s : String) : hasM1 (sub1 s) = false := by
  rw [hasM1, sub1, toList_asString]
  rw [Bool.eq_false_iff]
  intro hcon
  have hmem := List.elem_iff.mp hcon
  rw [List.mem_map] at hmem
  obtain ⟨c, _, hc⟩ := hmem
  by_cases h : c = '~'
  · rw [h] at hc; simp at hc
  · rw [if_neg h] at hc; exact h hc

theorem hasM1_sub2 (s : String) (h : hasM1 s = false) :
    hasM1 (sub2 s) = false := by
  rw [hasM1, sub2, toList_asString]
  rw [hasM1] at h
  rw [Bool.eq_false_iff]
  intro hcon
  have hmem := List.elem_iff.mp hcon
  rcases mem_sub2Go s.toList none '~' hmem with h2 | h2 | h2 | h2
  · exact absurd (List.elem_iff.mpr h2) (Bool.eq_false_iff.mp h)
  · exact absurd h2 (by decide)
  · exact absurd h2 (by decide)
  · exact Option.noConfusion h2

theorem sub1_of_no_tilde (s : String) (h : hasM1 s = false) : sub1 s = s := by
  rw [hasM1] at h
  have hnot : '~' ∉ s.toList := fun hm =>
    absurd (List.elem_iff.mpr hm) (Bool.eq_false_iff.mp h)
  rw [sub1, map_tilde_id s.toList hnot, asString_toList]

theorem sub2_of_no_match (s : String) (h : hasM2 s = false) : sub2 s = s := by
  rw [hasM2] at h
  rw [sub2, sub2Chars_of_no_match s.toList h, asString_toList]

theorem hasM2_sub2 (s : String) : hasM2 (sub2 s) = false := by
  rw [hasM2, sub2, toList_asString]
  exact hasM2Chars_sub2Chars s.toList

/-! ## Claim theorems -/

/-- Claim C1: the claim states that no pipeline stage duplicates any line,
in particular that the Bulk Normalizer re-emits every line it scans
exactly once.  The code violates this: in each normalization pass the
verse-tracking branch (source line 228) appends a reference line and the
independent substitute-or-keep branch (source lines 231-240) appends it
again, so after both passes each reference line appears four times.  On
the two-line file `["Gen 1:1", "a~b"]` the stage emits five lines with
`"Gen 1:1"` quadrupled, even though no excision or merge consumed
anything. -/
theorem c1_normalizer_duplicates_reference_lines :
    normStage [("f", ["Gen 1:1", "a~b"])] =
      [("f", ["Gen 1:1", "Gen 1:1", "Gen 1:1", "Gen 1:1", "a^b"])] := by
  decide

/-- Claim C2: the claim states that a guarded block excision modifies only
its own target line range, in particular that the merged line produced by
the earlier Ps 68:31 double-orphan repair is carried unchanged into the
next stage.  The code violates this: the Ps 18:40 excision splices the
stale `pss` binding captured *before* the merge reassigned `file2lines`,
so when both anchors match, the final Psalms list is built entirely from
the pre-merge list — every surviving line is a line of the original
input, and the merged line is discarded. -/
theorem c2_ps18_excision_reverts_ps68_merge (pss : List String)
    (b c e : String)
    (h48 : pyGet pss 10848 = some "MTR")
    (h49 : pyGet pss 10849 = some b)
    (h50 : pyGet pss 10850 = some c)
    (h59 : pyGet pss 2459 = some "Ps 18:40")
    (h57 : pyGet pss 2457 = some e) :
    psalmsRepairs pss =
      .ok (pss.take 2456 ++ [e] ++ pss.drop 2460,
        ["patching double-orphaned lines in lines 10849-10851 of 20.Psalms.par (Ps 68:31)",
         "\tdone",
         "patching corrupt lines 2457-2461 in 20.Psalms.par...",
         "\tdone"]) ∧
    (∀ x, x ∈ pss.take 2456 ++ [e] ++ pss.drop 2460 → x ∈ pss) := by
  constructor
  · simp only [psalmsRepairs, ps68merge, ps18excision, h48, h49, h50, h59,
      h57, ite_true, List.append_assoc, List.cons_append, List.nil_append,
      if_pos rfl]
  · intro x hx
    rcases List.mem_append.mp hx with hx1 | hx2
    · rcases List.mem_append.mp hx1 with hx3 | hx4
      · exact List.take_subset _ _ hx3
      · have hxe : x = e := by simpa using hx4
        subst hxe
        have h57n : pss[(2457 : Nat)]? = some x := by
          have ht : (2457 : Int).toNat = 2457 := rfl
          rw [pyGet_nonneg _ _ (by norm_num), ht] at h57
          exact h57
        exact List.getElem?_mem h57n
    · exact List.drop_subset _ _ hx2

/-- Witness for C2 on `testPss`, a 10852-line Psalms corpus with both
anchors in place: the merge of `"MTR" ++ "O1" ++ "O2"` is lost and the
excision output is drawn entirely from the unmerged input. -/
theorem c2_ps18_excision_reverts_ps68_merge_witness :
    psalmsRepairs testPss =
      .ok (testPss.take 2456 ++ ["K"] ++ testPss.drop 2460,
        ["patching double-orphaned lines in lines 10849-10851 of 20.Psalms.par (Ps 68:31)",
         "\tdone",
         "patching corrupt lines 2457-2461 in 20.Psalms.par...",
         "\tdone"]) ∧
    (∀ x, x ∈ testPss.take 2456 ++ ["K"] ++ testPss.drop 2460 →
      x ∈ testPss) := by
  have h48 : pyGet testPss 10848 = some "MTR" := by
    have h := testPss_get 10848 (by norm_num)
    exact_mod_cast h
  have h49 : pyGet testPss 10849 = some "O1" := by
    have h := testPss_get 10849 (by norm_num)
    exact_mod_cast h
  have h50 : pyGet testPss 10850 = some "O2" := by
    have h := testPss_get 10850 (by norm_num)
    exact_mod_cast h
  have h59 : pyGet testPss 2459 = some "Ps 18:40" := by
    have h := testPss_get 2459 (by norm_num)
    exact_mod_cast h
  have h57 : pyGet testPss 2457 = some "K" := by
    have h := testPss_get 2457 (by norm_num)
    exact_mod_cast h
  exact c2_ps18_excision_reverts_ps68_merge testPss "O1" "O2" "K"
    h48 h49 h50 h59 h57

/-- Claim C3: in the orphan-reattachment scan, when the verse context is a
Psalms reference, a non-empty line without the tab delimiter is merged
downward: it is concatenated with the immediately following line into a
single emitted line and the scan position skips the consumed line
(advancing by two). -/
theorem c3_psalms_orphan_merged_downward (f cv line nxt prev : String)
    (lines acc log : List String) (i fuel : Nat)
    (hline : lines[i]? = some line)
    (href : refMatch line = false)
    (hne : line.isEmpty = false)
    (htab : lineHasTab line = false)
    (hprev : pyGet lines ((i : Int) - 1) = some prev)
    (hnxt : pyGet lines ((i : Int) + 1) = some nxt)
    (hps : psPrefix cv = true) :
    orphanLoop f lines (some cv) acc log i (fuel + 1) =
      orphanLoop f lines (some cv) (acc ++ [line ++ nxt])
        (log ++ [showMsg f i cv prev line nxt]) (i + 2) fuel := by
  simp only [orphanLoop, hline, href, hne, htab, hprev, hnxt, hps,
    Bool.not_false, Bool.and_self, if_false, if_true, Bool.false_eq_true,
    ite_false, ite_true]

/-- Witness for C3 at the spec's own example `["Ps 68:31", "MTR",
"continued text"]`: the step at index 1 merges `"MTR"` with the following
line, and the full stage yields `["Ps 68:31", "MTRcontinued text"]`. -/
theorem c3_psalms_orphan_merged_downward_witness :
    orphanLoop "f" ["Ps 68:31", "MTR", "continued text"] (some "Ps 68:31")
      ["Ps 68:31"] [] 1 2 =
    orphanLoop "f" ["Ps 68:31", "MTR", "continued text"] (some "Ps 68:31")
      (["Ps 68:31"] ++ ["MTR" ++ "continued text"])
      ([] ++ [showMsg "f" 1 "Ps 68:31" "Ps 68:31" "MTR" "continued text"])
      3 1 ∧
    orphanStage [("f", ["Ps 68:31", "MTR", "continued text"])] =
      .ok ([("f", ["Ps 68:31", "MTRcontinued text"])], some "Ps 68:31",
        [showMsg "f" 1 "Ps 68:31" "Ps 68:31" "MTR" "continued text"]) :=
  ⟨c3_psalms_orphan_merged_downward "f" "Ps 68:31" "MTR" "continued text"
    "Ps 68:31" _ ["Ps 68:31"] [] 1 1 (by decide) (by decide) (by decide)
    (by decide) (by decide) (by decide) (by decide),
   by decide⟩

/-- Claim C4 counterexample: the claim's own example `["Gen 1:1",
"some base\tGK", "TAIL"]` does not become `["Gen 1:1",
"some base\tGKTAIL"]` — the orphan `"TAIL"` is the file's last line, so
the log-context f-string at source line 174 indexes `lines[i+1]` past the
end and the stage aborts with an `IndexError` instead of producing any
output. -/
theorem c4_upward_example_raises_index_error :
    orphanStage [("f", ["Gen 1:1", "some base\tGK", "TAIL"])] =
      .error .indexError := by
  decide

/-- Claim C4 (amended): when the verse context is not a Psalms reference
and a following line exists (the logging f-string reads it), an orphan
line is merged upward by appending its text onto the *last line already
emitted to the output* — so consecutive orphans each append onto the same
growing last output line; the spec's example needs a trailing line, e.g.
`["Gen 1:1", "some base\tGK", "TAIL", ""]` becomes `["Gen 1:1",
"some base\tGKTAIL", ""]`. -/
theorem c4_orphan_merged_upward_onto_last_output (f cv line nxt prev
    lastLine : String) (lines acc0 log : List String) (i fuel : Nat)
    (hline : lines[i]? = some line)
    (href : refMatch line = false)
    (hne : line.isEmpty = false)
    (htab : lineHasTab line = false)
    (hprev : pyGet lines ((i : Int) - 1) = some prev)
    (hnxt : pyGet lines ((i : Int) + 1) = some nxt)
    (hps : psPrefix cv = false) :
    orphanLoop f lines (some cv) (acc0 ++ [lastLine]) log i (fuel + 1) =
      orphanLoop f lines (some cv) (acc0 ++ [lastLine ++ line])
        (log ++ [showMsg f i cv prev line nxt]) (i + 1) fuel := by
  simp only [orphanLoop, hline, href, hne, htab, hprev, hnxt, hps,
    Bool.not_false, Bool.and_self, Bool.false_eq_true, ite_false, ite_true,
    List.getLast?_concat, List.dropLast_concat]

/-- Witness for the amended C4: the upward step at index 2 of
`["Gen 1:1", "some base\tGK", "TAIL", ""]` appends `"TAIL"` onto the last
emitted line, and the full stage yields
`["Gen 1:1", "some base\tGKTAIL", ""]`. -/
theorem c4_orphan_merged_upward_onto_last_output_witness :
    orphanLoop "f" ["Gen 1:1", "some base\tGK", "TAIL", ""] (some "Gen 1:1")
      (["Gen 1:1"] ++ ["some base\tGK"]) [] 2 2 =
    orphanLoop "f" ["Gen 1:1", "some base\tGK", "TAIL", ""] (some "Gen 1:1")
      (["Gen 1:1"] ++ ["some base\tGK" ++ "TAIL"])
      ([] ++ [showMsg "f" 2 "Gen 1:1" "some base\tGK" "TAIL" ""]) 3 1 ∧
    orphanStage [("f", ["Gen 1:1", "some base\tGK", "TAIL", ""])] =
      .ok ([("f", ["Gen 1:1", "some base\tGKTAIL", ""])], some "Gen 1:1",
        [showMsg "f" 2 "Gen 1:1" "some base\tGK" "TAIL" ""]) :=
  ⟨c4_orphan_merged_upward_onto_last_output "f" "Gen 1:1" "TAIL" ""
    "some base\tGK" "some base\tGK" _ ["Gen 1:1"] [] 2 1 (by decide)
    (by decide) (by decide) (by decide) (by decide) (by decide) (by decide),
   by decide⟩

/-- Claim C5: a manual edit whose confirmation predicate rejects the
current line leaves the corpus unchanged at that step, appends the
warning block containing the stale line content and the rendered edit
tuple to the log, and continues with the remaining edits in declaration
order. -/
theorem c5_unconfirmed_edit_skipped_and_logged
    (confirm : String → String → Bool) (curFile f0 : String)
    (ln : Nat) (pat red : String)
    (rest : List (String × Nat × String × String))
    (fls : List (String × List String)) (log : List String)
    (feff : String) (ls : List String) (old : String)
    (hf : (if f0 = "" then curFile else f0) = feff)
    (hls : lookupFile fls feff = some ls)
    (hold : ls[ln]? = some old)
    (hconf : confirm pat old = false) :
    applyEdits confirm curFile ((f0, ln, pat, red) :: rest) fls log =
      applyEdits confirm feff rest fls
        (log ++ ["**WARNING: THE FOLLOWING EDIT WAS NOT CONFIRMED**:",
                 "\tOLD: " ++ old,
                 "\tEDIT: " ++ editRepr feff ln pat red]) := by
  rw [applyEdits]
  simp only [hf, hls, hold, hconf, Bool.false_eq_true, ite_false]

/-- Witness for C5: with a confirmation predicate that rejects
everything, a single edit against the one-file corpus `[("f", ["a"])]`
mutates nothing and pushes the three warning lines. -/
theorem c5_unconfirmed_edit_skipped_and_logged_witness :
    (fun _ _ => false : String → String → Bool) "p" "a" = false ∧
    applyEdits (fun _ _ => false) "" [("f", 0, "p", "r")] [("f", ["a"])] [] =
      applyEdits (fun _ _ => false) "f" [] [("f", ["a"])]
        ([] ++ ["**WARNING: THE FOLLOWING EDIT WAS NOT CONFIRMED**:",
                "\tOLD: " ++ "a",
                "\tEDIT: " ++ editRepr "f" 0 "p" "r"]) :=
  ⟨rfl, c5_unconfirmed_edit_skipped_and_logged (fun _ _ => false) "" "f" 0
    "p" "r" [] [("f", ["a"])] [] "f" ["a"] "a" (by decide) (by decide)
    rfl rfl⟩

/-- Claim C6: a hardcoded block excision proceeds only when its exact
anchor-equality check passes; when the anchor line has been altered, the
Exodus excision returns the line list untouched and the Ps 18:40 excision
keeps the current corpus list untouched, each emitting only its warning
message. -/
theorem c6_failed_anchor_leaves_lines_untouched (exod : List String)
    (a : String)
    (ha : pyGet exod 16284 = some a) (hane : a ≠ "Exod 1:10")
    (pss cur : List String) (d : String)
    (hd : pyGet pss 2459 = some d) (hdne : d ≠ "Ps 18:40") :
    exodusRepair exod =
      .ok (exod,
        ["**WARNING: SKIPPING EXODUS CORRUPTION REPAIR DUE TO CHANGED LINE NUMBERS; see code"]) ∧
    ps18excision pss cur =
      .ok (cur,
        ["**WARNING: SKIPPING PSALMS ORPHAN REPAIR #2 DUE TO CHANGED LINE NUMBERS; see code"]) := by
  constructor
  · rw [exodusRepair, ha]
    simp only [hane, ite_false, if_neg hane]
  · rw [ps18excision, hd]
    simp only [hdne, ite_false, if_neg hdne]

/-- Witness for C6 on altered-anchor corpora: a 16285-line Exodus file of
`"x"` lines and a 2460-line Psalms file of `"y"` lines are left exactly
as they were, with only the warnings logged. -/
theorem c6_failed_anchor_leaves_lines_untouched_witness :
    exodusRepair (List.replicate 16285 "x") =
      .ok (List.replicate 16285 "x",
        ["**WARNING: SKIPPING EXODUS CORRUPTION REPAIR DUE TO CHANGED LINE NUMBERS; see code"]) ∧
    ps18excision (List.replicate 2460 "y") ["z"] =
      .ok (["z"],
        ["**WARNING: SKIPPING PSALMS ORPHAN REPAIR #2 DUE TO CHANGED LINE NUMBERS; see code"]) := by
  have h1 : pyGet (List.replicate 16285 "x") 16284 = some "x" := by
    have ht : (16284 : Int).toNat = 16284 := rfl
    rw [pyGet_nonneg _ _ (by norm_num), ht, List.getElem?_replicate]
    norm_num
  have h2 : pyGet (List.replicate 2460 "y") 2459 = some "y" := by
    have ht : (2459 : Int).toNat = 2459 := rfl
    rw [pyGet_nonneg _ _ (by norm_num), ht, List.getElem?_replicate]
    norm_num
  exact c6_failed_anchor_leaves_lines_untouched (List.replicate 16285 "x")
    "x" h1 (by decide) (List.replicate 2460 "y") ["z"] "y" h2 (by decide)

/-- Claim C7 counterexample: the claim states that the substitution list
is idempotent on every line of the pipeline's output.  The corpus
`[("f", ["Gen 1:1~"])]` refutes it: the line is a reference line (the
pattern anchors only at the start) containing `'~'`, the verse-tracking
branch re-emits it raw, so the final output still contains `"Gen 1:1~"` —
a line on which the first substitution still finds a match and still
rewrites text. -/
theorem c7_raw_reference_copy_still_matches :
    normStage [("f", ["Gen 1:1~"])] =
      [("f", ["Gen 1:1~", "Gen 1:1~", "Gen 1:1^", "Gen 1:1^"])] ∧
    hasM1 "Gen 1:1~" = true ∧
    sub1 "Gen 1:1~" ≠ "Gen 1:1~" := by
  refine ⟨by decide, by decide, by decide⟩

/-- Claim C7 (amended): the ordered substitution list is idempotent on its
own *substitution output*: for every string, after applying `'~' -> '^'`
and then `(['^])= -> \g<1> =`, neither pattern finds a match and
re-applying either substitution changes nothing.  (The unchanged claim
fails only for the raw duplicate copies of reference lines that the
verse-tracking branch re-emits without substitution.) -/
theorem c7_substitution_list_idempotent (s : String) :
    hasM1 (subsOnce s) = false ∧ hasM2 (subsOnce s) = false ∧
    sub1 (subsOnce s) = subsOnce s ∧ sub2 (subsOnce s) = subsOnce s := by
  have h1 : hasM1 (subsOnce s) = false := by
    rw [subsOnce]
    exact hasM1_sub2 (sub1 s) (sub1_no_tilde s)
  have h2 : hasM2 (subsOnce s) = false := by
    rw [subsOnce]
    exact hasM2_sub2 (sub1 s)
  exact ⟨h1, h2, sub1_of_no_tilde _ h1, sub2_of_no_match _ h2⟩

/-- Claim C8: whenever the scan is at the last line of a file and that
line is an orphan (non-empty, no tab, not a reference line), building the
log-context string indexes the line after the current one and raises an
uncaught `IndexError` — for any verse context, including a Psalms one —
and a file consisting of such an orphan aborts the whole stage rather
than being skipped with a warning. -/
theorem c8_last_line_orphan_index_error (l : String)
    (href : refMatch l = false) (hne : l.isEmpty = false)
    (htab : lineHasTab l = false) :
    (∀ (f : String) (lines : List String) (i : Nat) (ctx : Option String)
       (acc log : List String) (fuel : Nat),
       lines.length = i + 1 → lines[i]? = some l →
       orphanLoop f lines ctx acc log i (fuel + 1) = .error .indexError) ∧
    (∀ (f : String) (files : List (String × List String))
       (ctx : Option String),
       orphanStageGo ctx ((f, [l]) :: files) = .error .indexError) := by
  have part1 : ∀ (f : String) (lines : List String) (i : Nat)
      (ctx : Option String) (acc log : List String) (fuel : Nat),
      lines.length = i + 1 → lines[i]? = some l →
      orphanLoop f lines ctx acc log i (fuel + 1) = .error .indexError := by
    intro f lines i ctx acc log fuel hlen hline
    obtain ⟨prev, hprev⟩ := pyGet_pred_isSome lines i l hline
    have hnxt : pyGet lines ((i : Int) + 1) = none := by
      have hc : ((i : Int) + 1) = ((i + 1 : Nat) : Int) := by push_cast; omega
      rw [hc, pyGet_nonneg _ _ (by omega), Int.toNat_natCast]
      exact List.getElem?_eq_none (by omega)
    simp only [orphanLoop, hline, href, hne, htab, hprev, hnxt,
      Bool.not_false, Bool.and_self, Bool.false_eq_true, ite_false, ite_true]
  refine ⟨part1, ?_⟩
  intro f files ctx
  have h1 : orphanFile f [l] ctx = .error .indexError := by
    show orphanLoop f [l] ctx [] [] 0 1 = .error .indexError
    exact part1 f [l] 0 ctx [] [] 0 (by simp) rfl
  simp only [orphanStageGo, h1]

/-- Witness for C8: the single-line file `["X"]` (an orphan last line)
aborts the stage with an `IndexError`. -/
theorem c8_last_line_orphan_index_error_witness :
    refMatch "X" = false ∧ String.isEmpty "X" = false ∧
    lineHasTab "X" = false ∧
    orphanStageGo none [("f", ["X"])] = .error .indexError :=
  ⟨by decide, by decide, by decide,
   (c8_last_line_orphan_index_error "X" (by decide) (by decide)
     (by decide)).2 "f" [] none⟩

/-- Claim C9 counterexample: the claim states that an orphan line met
before any reference line aborts the pipeline with an `AttributeError`
from `None.startswith`.  On the corpus `[("f", ["X"])]` the orphan is
also the file's last line, and the log-context f-string's `lines[i+1]`
raises `IndexError` first, so the abort is *not* an `AttributeError`. -/
theorem c9_last_line_orphan_not_attribute_error :
    orphanStage [("f", ["X"])] = .error .indexError ∧
    orphanStage [("f", ["X"])] ≠ .error .attributeError := by
  constructor
  · decide
  · decide

/-- Claim C9 (amended): when an orphan line is encountered while the verse
context is still the `None` it was initialised to (no reference line seen
anywhere in the stage) and a following line exists (so the log-context
lookup succeeds), the merge-direction test calls `.startswith` on `None`
and the stage aborts with an uncaught `AttributeError`; if the orphan is
the file's last line, the `IndexError` of the context lookup fires
first. -/
theorem c9_orphan_before_any_reference_attribute_error (l nxt : String)
    (href : refMatch l = false) (hne : l.isEmpty = false)
    (htab : lineHasTab l = false) :
    (∀ (f : String) (lines : List String) (i : Nat) (acc log : List String)
       (fuel : Nat),
       lines[i]? = some l → pyGet lines ((i : Int) + 1) = some nxt →
       orphanLoop f lines none acc log i (fuel + 1) =
         .error .attributeError) ∧
    (∀ (f : String) (rest : List String)
       (files : List (String × List String)),
       orphanStageGo none ((f, l :: nxt :: rest) :: files) =
         .error .attributeError) := by
  have part1 : ∀ (f : String) (lines : List String) (i : Nat)
      (acc log : List String) (fuel : Nat),
      lines[i]? = some l → pyGet lines ((i : Int) + 1) = some nxt →
      orphanLoop f lines none acc log i (fuel + 1) =
        .error .attributeError := by
    intro f lines i acc log fuel hline hnxt
    obtain ⟨prev, hprev⟩ := pyGet_pred_isSome lines i l hline
    simp only [orphanLoop, hline, href, hne, htab, hprev, hnxt,
      Bool.not_false, Bool.and_self, Bool.false_eq_true, ite_false, ite_true]
  refine ⟨part1, ?_⟩
  intro f rest files
  have h1 : orphanFile f (l :: nxt :: rest) none = .error .attributeError := by
    show orphanLoop f (l :: nxt :: rest) none [] [] 0
      (l :: nxt :: rest).length = .error .attributeError
    have hlen : (l :: nxt :: rest).length = (rest.length + 1) + 1 := by simp
    rw [hlen]
    refine part1 f _ 0 [] [] (rest.length + 1) rfl ?_
    have h0 : ((0 : Nat) : Int) + 1 = ((1 : Nat) : Int) := by norm_num
    rw [h0, pyGet_nonneg _ _ (by omega), Int.toNat_natCast]
    simp
  simp only [orphanStageGo, h1]

/-- Witness for the amended C9: the file `["X", "y\tz"]` starts with an
orphan whose following line exists; with the stage's initial `None`
context the run aborts with an `AttributeError`. -/
theorem c9_orphan_before_any_reference_attribute_error_witness :
    refMatch "X" = false ∧ String.isEmpty "X" = false ∧
    lineHasTab "X" = false ∧
    orphanStageGo none [("f", ["X", "y\tz"])] = .error .attributeError :=
  ⟨by decide, by decide, by decide,
   (c9_orphan_before_any_reference_attribute_error "X" "y\tz" (by decide)
     (by decide) (by decide)).2 "f" [] []⟩

/-- Claim C10: the verse context of the orphan-reattachment stage is
initialised once for the whole corpus, so an orphan at the start of the
second file takes its merge direction from the last reference line of the
first file: with a `"Gen 1:1"` context the orphan `"OR"` of file `b` is
merged upward, with a `"Ps 1:1"` context the very same file is merged
downward. -/
theorem c10_verse_context_carries_across_files :
    orphanStage [("a", ["Gen 1:1", "x\ty"]), ("b", ["d\te", "OR", "f\tg"])] =
      .ok ([("a", ["Gen 1:1", "x\ty"]), ("b", ["d\teOR", "f\tg"])],
        some "Gen 1:1", [showMsg "b" 1 "Gen 1:1" "d\te" "OR" "f\tg"]) ∧
    orphanStage [("a", ["Ps 1:1", "x\ty"]), ("b", ["d\te", "OR", "f\tg"])] =
      .ok ([("a", ["Ps 1:1", "x\ty"]), ("b", ["d\te", "ORf\tg"])],
        some "Ps 1:1", [showMsg "b" 1 "Ps 1:1" "d\te" "OR" "f\tg"]) := by
  constructor
  · decide
  · decide

end PatchCatss
